import Mathlib

/-!
Shallow embedding of `src/Gen10/app.py`, a small reactive question-answering
front-end.  The query engine is an external dependency; the server code wires
a question field, a submit button, five preset-question buttons and a
response renderer around it.  We model the per-session mutable data as an
explicit state record, the submit and preset handlers as pure functions that
additionally return the trace of response-state writes and of query-engine
calls they perform, and the renderer as a pure function on the response text.
The opaque `query_engine.query` is a parameter of type
`String → Except String String`: `Except.ok a` models a normal return whose
`str()` is `a`, `Except.error e` models a raised exception whose `str()` is
`e`.
-/

/-- Per-session mutable data of `server`: the value of the `question`
text-area, the `response_text` reactive value, and the (shared, in the
source module-level) `SAMPLE_QUESTIONS` list object, carried here so that
frame properties about it can be stated. -/
structure AppState where
  question : String
  responseText : String
  samples : List String
  deriving Repr, DecidableEq

/-- The observable effect of running one handler: the session state after it
returns, the successive arguments passed to `query_engine.query`, and the
successive values stored into `response_text` (in order). -/
structure EffectTrace where
  finalState : AppState
  engineCalls : List String
  responseWrites : List String
  deriving Repr, DecidableEq

/-- The literal set first by `handle_ask` for a non-empty question
(`response_text.set("🔄 Thinking...")`, app.py line 113). -/
def working_indicator : String := "🔄 Thinking..."

/-- The fixed marker prepended to the exception text in the `except` branch
of `handle_ask` (app.py line 119). -/
def error_marker : String := "❌ Error: "

/-- The submit handler `handle_ask` (app.py lines 110-119).  The guard
`if input.question():` is Python string truthiness: it runs the body exactly
when the question string is non-empty.  The body sets `response_text` to the
working indicator, calls `query_engine.query` on the question, and then sets
`response_text` to `str(response)` on normal return or to the error marker
followed by `str(e)` when an exception is raised. -/
def handle_ask (engine : String → Except String String) (s : AppState) :
    EffectTrace :=
  if s.question = "" then
    { finalState := s, engineCalls := [], responseWrites := [] }
  else
    match engine s.question with
    | Except.ok ans =>
        { finalState := { s with responseText := ans },
          engineCalls := [s.question],
          responseWrites := [working_indicator, ans] }
    | Except.error e =>
        { finalState := { s with responseText := error_marker ++ e },
          engineCalls := [s.question],
          responseWrites := [working_indicator, error_marker ++ e] }

/-- The module-level `SAMPLE_QUESTIONS` list (app.py lines 46-52). -/
def SAMPLE_QUESTIONS : List String :=
  ["What is Crawl4AI?",
   "How do I add a proxy to my crawler?",
   "How to build a simple web crawler?",
   "How does the JsonCssExtractionStrategy work?",
   "How can I crawl multiple URLs?"]

/-- Python `list.index`: the position of the first occurrence of `x` in
`xs` (the source only calls it on members of the list). -/
def pyListIndex (xs : List String) (x : String) : Nat :=
  match xs with
  | [] => 0
  | y :: ys => if y = x then 0 else pyListIndex ys x + 1

/-- One registered preset handler: the index of the `sample_i` button whose
event it listens on, and the question text its body writes. -/
structure PresetBinding where
  button : Nat
  text : String
  deriving Repr, DecidableEq

/-- `make_handler(question)` (app.py lines 123-127) registers a reactive
effect on the event of button `sample_{SAMPLE_QUESTIONS.index(question)}`
whose body writes `question` into the question field. -/
def make_handler (question : String) : PresetBinding :=
  { button := pyListIndex SAMPLE_QUESTIONS question, text := question }

/-- The registration loop `for i, q in enumerate(SAMPLE_QUESTIONS):
make_handler(q)` (app.py lines 121-127): one binding per list element, in
order.  The loop index `i` is not used by `make_handler`; the button index
comes from `SAMPLE_QUESTIONS.index(q)`. -/
def presetBindings : List PresetBinding :=
  SAMPLE_QUESTIONS.map make_handler

/-- The question texts written by the handlers bound to button `sample_i`,
in registration order. -/
def handlersOn (i : Nat) : List String :=
  (presetBindings.filter (fun b => b.button == i)).map PresetBinding.text

/-- The body of one preset handler (app.py line 126):
`ui.update_text_area("question", value=question)` writes `question` into the
question field; it touches neither `response_text` nor the query engine. -/
def preset_effect (question : String) (s : AppState) : EffectTrace :=
  { finalState := { s with question := question },
    engineCalls := [],
    responseWrites := [] }

/-- What the response renderer produces: a `div` with an optional CSS class,
an optional inline style, and its text content. -/
structure RenderedDiv where
  css : Option String
  style : Option String
  content : String
  deriving Repr, DecidableEq

/-- The placeholder prompt rendered for an empty response state
(app.py line 135). -/
def placeholder_prompt : String := "Ask a question to get started!"

/-- The renderer `response` (app.py lines 130-136): a pure function of the
current `response_text` value.  `if not text:` is string truthiness, so the
empty string yields the gray placeholder div and any non-empty string is
placed verbatim in the `response-box` div (monospace per the page
stylesheet). -/
def response (text : String) : RenderedDiv :=
  if text = "" then
    { css := none, style := some "color: #666;", content := placeholder_prompt }
  else
    { css := some "response-box", style := none, content := text }

/-- The custom answer-formatting prompt `qa_prompt_tmpl_str`
(app.py lines 32-41), a fixed string (apostrophes written `\x27`). -/
def qa_prompt_tmpl_str : String :=
  "Context information is below.\n---------------------\n{context_str}\n---------------------\nGiven the context above, answer the query in a step-by-step manner. Include code snippets when relevant. If you don\x27t know the answer, say \x27I don\x27t know!\x27.\nQuery: {query_str}\nAnswer: "

/-- A stub query engine that returns `ans` for every question (used only to
instantiate theorems at concrete inputs). -/
def stub_ok (ans : String) : String → Except String String :=
  fun _ => Except.ok ans

/-- A stub query engine that raises an exception with text `e` for every
question (used only to instantiate theorems at concrete inputs). -/
def stub_err (e : String) : String → Except String String :=
  fun _ => Except.error e

/-- C1: for every engine and every session state with a non-empty question,
`handle_ask` writes the working indicator first, then (after the engine call
has returned) writes exactly one more value, equal to the answer text on
normal return and to the error marker followed by the exception text on an
exception; the final response state is that second, post-return write, so
the initial working write is never the one that remains. -/
theorem handle_ask_working_then_result
    (engine : String → Except String String) (s : AppState)
    (h : s.question ≠ "") :
    (handle_ask engine s).responseWrites.head? = some working_indicator ∧
    (handle_ask engine s).responseWrites.length = 2 ∧
    (handle_ask engine s).responseWrites.getLast? =
      some (handle_ask engine s).finalState.responseText ∧
    ((∃ ans, engine s.question = Except.ok ans ∧
        (handle_ask engine s).finalState.responseText = ans) ∨
     (∃ e, engine s.question = Except.error e ∧
        (handle_ask engine s).finalState.responseText = error_marker ++ e)) := by
  unfold handle_ask
  rw [if_neg h]
  cases hq : engine s.question with
  | ok ans =>
      refine ⟨rfl, rfl, rfl, Or.inl ⟨ans, rfl, rfl⟩⟩
  | error e =>
      refine ⟨rfl, rfl, rfl, Or.inr ⟨e, rfl, rfl⟩⟩

/-- Witness for C1 at the question "hi" and an engine answering "ok". -/
theorem handle_ask_working_then_result_witness :
    ("hi" : String) ≠ "" ∧
    ((handle_ask (stub_ok "ok")
        { question := "hi", responseText := "", samples := SAMPLE_QUESTIONS
        }).responseWrites.head? = some working_indicator ∧
     (handle_ask (stub_ok "ok")
        { question := "hi", responseText := "", samples := SAMPLE_QUESTIONS
        }).responseWrites.length = 2 ∧
     (handle_ask (stub_ok "ok")
        { question := "hi", responseText := "", samples := SAMPLE_QUESTIONS
        }).responseWrites.getLast? =
       some (handle_ask (stub_ok "ok")
        { question := "hi", responseText := "", samples := SAMPLE_QUESTIONS
        }).finalState.responseText ∧
     ((∃ ans, stub_ok "ok" "hi" = Except.ok ans ∧
        (handle_ask (stub_ok "ok")
          { question := "hi", responseText := "", samples := SAMPLE_QUESTIONS
          }).finalState.responseText = ans) ∨
      (∃ e, stub_ok "ok" "hi" = Except.error e ∧
        (handle_ask (stub_ok "ok")
          { question := "hi", responseText := "", samples := SAMPLE_QUESTIONS
          }).finalState.responseText = error_marker ++ e))) :=
  ⟨by decide,
   handle_ask_working_then_result (stub_ok "ok")
     { question := "hi", responseText := "", samples := SAMPLE_QUESTIONS }
     (by decide)⟩

/-- C2: for every engine and non-empty question on which the engine raises
an exception whose text is "boom", `handle_ask` returns normally (the
exception is caught) and leaves the response state exactly equal to the
error marker concatenated with "boom", which is the literal
"❌ Error: boom". -/
theorem handle_ask_error_boom
    (engine : String → Except String String) (s : AppState)
    (h : s.question ≠ "") (he : engine s.question = Except.error "boom") :
    (handle_ask engine s).finalState.responseText = "❌ Error: boom" ∧
    (handle_ask engine s).finalState.responseText = error_marker ++ "boom" := by
  unfold handle_ask
  rw [if_neg h, he]
  exact ⟨rfl, rfl⟩

/-- Witness for C2 at the question "hi" and an engine that always raises
"boom". -/
theorem handle_ask_error_boom_witness :
    ("hi" : String) ≠ "" ∧
    stub_err "boom" "hi" = Except.error "boom" ∧
    ((handle_ask (stub_err "boom")
        { question := "hi", responseText := "", samples := SAMPLE_QUESTIONS
        }).finalState.responseText = "❌ Error: boom" ∧
     (handle_ask (stub_err "boom")
        { question := "hi", responseText := "", samples := SAMPLE_QUESTIONS
        }).finalState.responseText = error_marker ++ "boom") :=
  ⟨by decide, rfl,
   handle_ask_error_boom (stub_err "boom")
     { question := "hi", responseText := "", samples := SAMPLE_QUESTIONS }
     (by decide) rfl⟩

/-- C3: for every engine, submitting with an empty question field leaves the
whole session state unchanged, makes no call to the query engine, and
performs no write to the response state. -/
theorem handle_ask_empty_noop
    (engine : String → Except String String) (s : AppState)
    (h : s.question = "") :
    (handle_ask engine s).finalState = s ∧
    (handle_ask engine s).engineCalls = [] ∧
    (handle_ask engine s).responseWrites = [] := by
  unfold handle_ask
  rw [if_pos h]
  exact ⟨rfl, rfl, rfl⟩

/-- Witness for C3 at an empty question and prior response "old". -/
theorem handle_ask_empty_noop_witness :
    ("" : String) = "" ∧
    ((handle_ask (stub_ok "ok")
        { question := "", responseText := "old", samples := SAMPLE_QUESTIONS
        }).finalState =
      { question := "", responseText := "old", samples := SAMPLE_QUESTIONS } ∧
     (handle_ask (stub_ok "ok")
        { question := "", responseText := "old", samples := SAMPLE_QUESTIONS
        }).engineCalls = [] ∧
     (handle_ask (stub_ok "ok")
        { question := "", responseText := "old", samples := SAMPLE_QUESTIONS
        }).responseWrites = []) :=
  ⟨rfl,
   handle_ask_empty_noop (stub_ok "ok")
     { question := "", responseText := "old", samples := SAMPLE_QUESTIONS }
     rfl⟩

/-- C4: for every index i into SAMPLE_QUESTIONS, exactly one registered
preset handler is bound to button sample_i and it writes SAMPLE_QUESTIONS[i];
running that handler on any session state sets the question field to exactly
SAMPLE_QUESTIONS[i], leaves the response state unchanged, writes nothing to
it, and makes no call to the query engine. -/
theorem preset_click_sets_question
    (i : Nat) (h : i < SAMPLE_QUESTIONS.length) (s : AppState) :
    handlersOn i = [SAMPLE_QUESTIONS.get ⟨i, h⟩] ∧
    (preset_effect (SAMPLE_QUESTIONS.get ⟨i, h⟩) s).finalState.question =
      SAMPLE_QUESTIONS.get ⟨i, h⟩ ∧
    (preset_effect (SAMPLE_QUESTIONS.get ⟨i, h⟩) s).finalState.responseText =
      s.responseText ∧
    (preset_effect (SAMPLE_QUESTIONS.get ⟨i, h⟩) s).responseWrites = [] ∧
    (preset_effect (SAMPLE_QUESTIONS.get ⟨i, h⟩) s).engineCalls = [] := by
  have h5 : i < 5 := by simpa [SAMPLE_QUESTIONS] using h
  refine ⟨?_, rfl, rfl, rfl, rfl⟩
  interval_cases i <;> rfl

/-- Witness for C4 at index 0 and a blank session. -/
theorem preset_click_sets_question_witness :
    0 < SAMPLE_QUESTIONS.length ∧
    (handlersOn 0 = [SAMPLE_QUESTIONS.get ⟨0, by decide⟩] ∧
     (preset_effect (SAMPLE_QUESTIONS.get ⟨0, by decide⟩)
        { question := "", responseText := "r", samples := SAMPLE_QUESTIONS
        }).finalState.question = SAMPLE_QUESTIONS.get ⟨0, by decide⟩ ∧
     (preset_effect (SAMPLE_QUESTIONS.get ⟨0, by decide⟩)
        { question := "", responseText := "r", samples := SAMPLE_QUESTIONS
        }).finalState.responseText = "r" ∧
     (preset_effect (SAMPLE_QUESTIONS.get ⟨0, by decide⟩)
        { question := "", responseText := "r", samples := SAMPLE_QUESTIONS
        }).responseWrites = [] ∧
     (preset_effect (SAMPLE_QUESTIONS.get ⟨0, by decide⟩)
        { question := "", responseText := "r", samples := SAMPLE_QUESTIONS
        }).engineCalls = []) :=
  ⟨by decide,
   preset_click_sets_question 0 (by decide)
     { question := "", responseText := "r", samples := SAMPLE_QUESTIONS }⟩

/-- C5: the renderer is a pure function of the response state: the empty
string renders the placeholder prompt in a plain gray div, and every
non-empty state renders that text verbatim as the content of the
response-box div (the monospace display block of the stylesheet). -/
theorem response_render_cases (t : String) :
    response "" = { css := none, style := some "color: #666;",
                    content := placeholder_prompt } ∧
    (t ≠ "" → response t = { css := some "response-box", style := none,
                             content := t }) := by
  constructor
  · rfl
  · intro ht
    unfold response
    rw [if_neg ht]

/-- Witness for C5 at the non-empty state "hello". -/
theorem response_render_cases_witness :
    ("hello" : String) ≠ "" ∧
    response "" = { css := none, style := some "color: #666;",
                    content := placeholder_prompt } ∧
    response "hello" = { css := some "response-box", style := none,
                         content := "hello" } :=
  ⟨by decide, (response_render_cases "hello").1,
   (response_render_cases "hello").2 (by decide)⟩

/-- C6: if the engine returns the answer "42" on the exact input
"What is Crawl4AI?", then submitting that exact text stores the string form
of the result: the final response state is "42". -/
theorem handle_ask_stores_answer
    (engine : String → Except String String) (s : AppState)
    (hq : s.question = "What is Crawl4AI?")
    (he : engine "What is Crawl4AI?" = Except.ok "42") :
    (handle_ask engine s).finalState.responseText = "42" := by
  unfold handle_ask
  rw [hq, he, if_neg (by decide)]

/-- Witness for C6: a stub engine constantly answering "42". -/
theorem handle_ask_stores_answer_witness :
    ("What is Crawl4AI?" : String) = "What is Crawl4AI?" ∧
    stub_ok "42" "What is Crawl4AI?" = Except.ok "42" ∧
    (handle_ask (stub_ok "42")
      { question := "What is Crawl4AI?", responseText := "",
        samples := SAMPLE_QUESTIONS }).finalState.responseText = "42" :=
  ⟨rfl, rfl,
   handle_ask_stores_answer (stub_ok "42")
     { question := "What is Crawl4AI?", responseText := "",
       samples := SAMPLE_QUESTIONS }
     rfl rfl⟩

set_option maxRecDepth 16384

/-- C7: the installed answer-formatting template is the fixed string
`qa_prompt_tmpl_str`, and it contains the instruction to answer the query in
a step-by-step manner, the instruction to include code snippets when
relevant, and the literal phrase "I don\x27t know!" the model is told to say
when it does not know the answer. -/
theorem qa_prompt_contents :
    (∃ a b, qa_prompt_tmpl_str =
      a ++ "answer the query in a step-by-step manner" ++ b) ∧
    (∃ a b, qa_prompt_tmpl_str =
      a ++ "Include code snippets when relevant" ++ b) ∧
    (∃ a b, qa_prompt_tmpl_str = a ++ "I don\x27t know!" ++ b) := by
  refine ⟨⟨"Context information is below.\n---------------------\n{context_str}\n---------------------\nGiven the context above, ",
           ". Include code snippets when relevant. If you don\x27t know the answer, say \x27I don\x27t know!\x27.\nQuery: {query_str}\nAnswer: ",
           ?_⟩,
          ⟨"Context information is below.\n---------------------\n{context_str}\n---------------------\nGiven the context above, answer the query in a step-by-step manner. ",
           ". If you don\x27t know the answer, say \x27I don\x27t know!\x27.\nQuery: {query_str}\nAnswer: ",
           ?_⟩,
          ⟨"Context information is below.\n---------------------\n{context_str}\n---------------------\nGiven the context above, answer the query in a step-by-step manner. Include code snippets when relevant. If you don\x27t know the answer, say \x27",
           "\x27.\nQuery: {query_str}\nAnswer: ",
           ?_⟩⟩ <;> rfl

/-- C8: SAMPLE_QUESTIONS is the fixed ordered sequence of exactly five
preset strings, and neither the submit handler nor any preset handler ever
mutates it: every handler invocation carries the samples list of the session
state through unchanged (the renderer is a pure function of the response
text and touches no state at all). -/
theorem sample_questions_fixed :
    SAMPLE_QUESTIONS.length = 5 ∧
    (∀ engine s, (handle_ask engine s).finalState.samples = s.samples) ∧
    (∀ q s, (preset_effect q s).finalState.samples = s.samples) := by
  refine ⟨rfl, ?_, ?_⟩
  · intro engine s
    unfold handle_ask
    split
    · rfl
    · cases hq : engine s.question <;> simp [hq]
  · intro q s
    rfl

/-- C9: the five preset strings are pairwise distinct, and consequently the
handler registered via SAMPLE_QUESTIONS.index(question) inside make_handler
binds to the button of the same index as the question it populates: every
button sample_i has exactly one handler and that handler writes
SAMPLE_QUESTIONS[i]. -/
theorem sample_questions_distinct_bindings :
    SAMPLE_QUESTIONS.Nodup ∧
    (∀ q, q ∈ SAMPLE_QUESTIONS →
      (make_handler q).button = pyListIndex SAMPLE_QUESTIONS q ∧
      (make_handler q).text = q) ∧
    ∀ i, (h : i < SAMPLE_QUESTIONS.length) →
      handlersOn i = [SAMPLE_QUESTIONS.get ⟨i, h⟩] := by
  refine ⟨by decide, fun q _ => ⟨rfl, rfl⟩, ?_⟩
  intro i h
  have h5 : i < 5 := by simpa [SAMPLE_QUESTIONS] using h
  interval_cases i <;> rfl

/-- Witness for C9 at index 3. -/
theorem sample_questions_distinct_bindings_witness :
    "How does the JsonCssExtractionStrategy work?" ∈ SAMPLE_QUESTIONS ∧
    3 < SAMPLE_QUESTIONS.length ∧
    SAMPLE_QUESTIONS.Nodup ∧
    (make_handler "How does the JsonCssExtractionStrategy work?").text =
      "How does the JsonCssExtractionStrategy work?" ∧
    handlersOn 3 = [SAMPLE_QUESTIONS.get ⟨3, by decide⟩] :=
  ⟨by decide, by decide,
   sample_questions_distinct_bindings.1,
   (sample_questions_distinct_bindings.2.1
     "How does the JsonCssExtractionStrategy work?" (by decide)).2,
   sample_questions_distinct_bindings.2.2 3 (by decide)⟩

/-- C10: the emptiness guard of the submit handler is Python string
truthiness, not a blank-content test: any question made only of whitespace
characters is still non-empty, so the handler sets the working indicator
first and passes the whitespace string itself to the query engine. -/
theorem handle_ask_whitespace_truthiness
    (engine : String → Except String String) (s : AppState)
    (_hw : s.question.data.all Char.isWhitespace = true)
    (hne : s.question ≠ "") :
    (handle_ask engine s).engineCalls = [s.question] ∧
    (handle_ask engine s).responseWrites.head? = some working_indicator := by
  unfold handle_ask
  rw [if_neg hne]
  cases hq : engine s.question <;> exact ⟨rfl, rfl⟩

/-- Witness for C10 at the two-space question "  ". -/
theorem handle_ask_whitespace_truthiness_witness :
    ("  " : String).data.all Char.isWhitespace = true ∧
    ("  " : String) ≠ "" ∧
    ((handle_ask (stub_ok "ok")
        { question := "  ", responseText := "", samples := SAMPLE_QUESTIONS
        }).engineCalls = ["  "] ∧
     (handle_ask (stub_ok "ok")
        { question := "  ", responseText := "", samples := SAMPLE_QUESTIONS
        }).responseWrites.head? = some working_indicator) :=
  ⟨by decide, by decide,
   handle_ask_whitespace_truthiness (stub_ok "ok")
     { question := "  ", responseText := "", samples := SAMPLE_QUESTIONS }
     (by decide) (by decide)⟩
